import Mathlib

/-!
Verification of the game progression and scene-generation orchestration engine
of the generated-adventures repository.

The definitions below are a shallow embedding of the Python source:
  * src/core/models.py   — the pydantic data model (Game, Character, Scene, PromptType, ...)
  * src/core/generator.py — retry executor, character-state merger, prompt builder,
                            scene assembly (generate_opening_scene / generate_next_scene)
  * src/core/game.py     — the aggregate store transitions (advance_scene, opening scene)

External effects (the generative backend call, the illustration and voiceover
generation) are modelled by injecting their outcomes as explicit arguments of
type Except; Python exceptions become Except.error values, and the in-place
mutation of the Game object aliased by the store is modelled by returning the
post-call Game state on both the success and the failure path.
-/

deriving instance DecidableEq for Except

namespace GeneratedAdventures

/-! ## Data model (src/core/models.py) -/

/-- GameStatus literal: ongoing | completed | failed (models.py line 9). -/
inductive GameStatus where
  | ongoing
  | completed
  | failed
deriving DecidableEq, Repr

/-- PromptTypeEnum literal: dialogue | action | dice_check (models.py line 10). -/
inductive PromptTypeEnum where
  | dialogue
  | action
  | dice_check
deriving DecidableEq, Repr

/-- DiceType literal: d6 | d10 (models.py line 11). -/
inductive DiceType where
  | d6
  | d10
deriving DecidableEq, Repr

/-- Asset type literal: npc | object (models.py line 22). -/
inductive AssetKind where
  | npc
  | object
deriving DecidableEq, Repr

/-- Asset model (models.py lines 14-32): a recurring NPC or notable object. -/
structure Asset where
  id : String
  name : String
  type : AssetKind
  description : String
  image_path : Option String
deriving DecidableEq, Repr

/-- Character model (models.py lines 35-64). Python ints are modelled as Int. -/
structure Character where
  name : String
  strength : Int
  intelligence : Int
  agility : Int
  maximum_health : Int
  current_health : Int
  backstory : String
  appearance : String
  personality : String
  skills : List String
  inventory : List String
  image_path : Option String
deriving DecidableEq, Repr

/-- PromptType model fields (models.py lines 67-89), before validation. -/
structure PromptType where
  type : PromptTypeEnum
  dice_type : Option DiceType
  target_character : Option String
  target_characters : Option (List String)
  prompt_text : String
deriving DecidableEq, Repr

/-- has_single_target flag of the validator (models.py line 102):
self.target_character is not None. -/
def PromptType.has_single_target (p : PromptType) : Bool :=
  p.target_character.isSome

/-- has_multi_target flag of the validator (models.py lines 103-105):
self.target_characters is not None and len(self.target_characters) > 0. -/
def PromptType.has_multi_target (p : PromptType) : Bool :=
  match p.target_characters with
  | some l => decide (0 < l.length)
  | none => false

/-- The model validator PromptType.validate_dice_check_targeting
(models.py lines 91-119). A pydantic ValidationError becomes Except.error. -/
def PromptType.validate_dice_check_targeting (p : PromptType) :
    Except String PromptType :=
  if p.type = PromptTypeEnum.dice_check then
    if p.dice_type = none then
      Except.error "dice_check prompts must specify dice_type"
    else if p.has_single_target = false ∧ p.has_multi_target = false then
      Except.error "dice_check prompts must specify either target_character or target_characters"
    else if p.has_single_target = true ∧ p.has_multi_target = true then
      Except.error "dice_check prompts cannot specify both target_character and target_characters"
    else
      Except.ok p
  else
    Except.ok p

/-- Scene model (models.py lines 122-147). -/
structure Scene where
  id : Int
  text : String
  prompt : Option PromptType
  image_path : Option String
  voiceover_path : Option String
  visible_asset_ids : List String
  game_status : GameStatus
deriving DecidableEq, Repr

/-- Game model (models.py lines 150-163). The assets dict (asset id to Asset)
is modelled as an association list. -/
structure Game where
  id : String
  players : Int
  scenario_name : Option String
  characters : List Character
  scenario_details : Option String
  scenes : List Scene
  player_actions : List String
  assets : List (String × Asset)
deriving DecidableEq, Repr

/-- GeneratedCharacter model (models.py lines 185-217): the character payload
returned by the generation backend. -/
structure GeneratedCharacter where
  name : String
  strength : Int
  intelligence : Int
  agility : Int
  current_health : Int
  backstory : String
  appearance : String
  personality : String
  skills : List String
  inventory : List String
deriving DecidableEq, Repr

/-- AssetReference model (models.py lines 226-244). -/
structure AssetReference where
  name : String
  type : AssetKind
  description : String
  is_visible : Bool
deriving DecidableEq, Repr

/-- GeneratedScene model (models.py lines 247-269): the structured response of
the narrative-generation backend call. -/
structure GeneratedScene where
  scene_text : String
  prompt : PromptType
  updated_characters : List GeneratedCharacter
  assets_present : List AssetReference
  game_status : GameStatus
deriving DecidableEq, Repr

/-! ## Character State Merger (generator.py, _apply_character_updates, lines 598-683) -/

/-- The update applied to one matched character inside the loop body of
_apply_character_updates (generator.py lines 620-678). The Python code assigns
stats, inventory, skills, backstory, appearance and personality only when they
differ, which is extensionally the unconditional assignment; current_health is
special: the clamp max(0, min(proposed, maximum_health)) is applied only when
the proposed value differs from the current one. -/
def update_character (char : Character) (u : GeneratedCharacter) : Character :=
  { char with
    strength := u.strength
    intelligence := u.intelligence
    agility := u.agility
    current_health :=
      if char.current_health = u.current_health then char.current_health
      else max 0 (min u.current_health char.maximum_health)
    inventory := u.inventory
    skills := u.skills
    backstory := u.backstory
    appearance := u.appearance
    personality := u.personality }

/-- Helper: replace the first character whose name matches the update with its
updated version, leaving everything else in place. -/
def apply_update_first_match : List Character → GeneratedCharacter → List Character
  | [], _ => []
  | c :: cs, u =>
    if c.name = u.name then update_character c u :: cs
    else c :: apply_update_first_match cs u

/-- One iteration of the update loop of _apply_character_updates: the Python
code looks the name up in a dict built by a comprehension over the roster
(last occurrence wins) and mutates that aliased object in place, so the LAST
roster entry with a matching name is updated in place; an unknown name is
logged and skipped (generator.py lines 610-618). -/
def apply_update (cs : List Character) (u : GeneratedCharacter) : List Character :=
  (apply_update_first_match cs.reverse u).reverse

/-- _apply_character_updates (generator.py lines 598-683): fold the proposed
updates over the roster. Successive updates naming the same character compound,
exactly as the in-place mutations of the aliased dict values do in Python. -/
def apply_character_updates (characters : List Character)
    (updated_generated_chars : List GeneratedCharacter) : List Character :=
  updated_generated_chars.foldl apply_update characters

/-- The health invariant of a Character (spec section 3). -/
def HealthInv (c : Character) : Prop :=
  0 ≤ c.current_health ∧ c.current_health ≤ c.maximum_health

instance (c : Character) : Decidable (HealthInv c) :=
  inferInstanceAs (Decidable (0 ≤ c.current_health ∧ c.current_health ≤ c.maximum_health))

/-- The observable fields of a character that the merge never touches:
name, maximum_health and the portrait reference. -/
def roster_frame (c : Character) : String × Int × Option String :=
  (c.name, c.maximum_health, c.image_path)

/-! ## Retry Executor (generator.py, retry_on_overload, lines 53-105) -/

/-- MAX_RETRIES (generator.py line 54). -/
def MAX_RETRIES : Nat := 5

/-- RETRY_DELAY in seconds (generator.py line 55). -/
def RETRY_DELAY : Nat := 3

/-- RETRY_BACKOFF, the exponential backoff multiplier (generator.py line 56). -/
def RETRY_BACKOFF : Nat := 2

/-- An exception raised by the wrapped backend call. ApiError.api models a
ServerError or ClientError from the google client, carrying the status_code
(or code) attribute when one is present; ApiError.unexpected models any other
exception type, which retry_on_overload never retries. -/
inductive ApiError where
  | api (status : Option Int)
  | unexpected (msg : String)
deriving DecidableEq, Repr

/-- The retryable-status test of generator.py line 82:
status_code in (503, 429, 500). -/
def is_retryable_status (code : Int) : Bool :=
  code = 503 ∨ code = 429 ∨ code = 500

/-- The loop body of retry_on_overload (generator.py lines 68-101). The wrapped
coroutine is modelled as a function from the attempt index to its outcome. The
fuel argument equals MAX_RETRIES - attempt, so the Python guard
attempt < MAX_RETRIES - 1 is exactly 0 < fuel after the pattern match on
fuel + 1. Returns (outcome, attempts made, delays slept between attempts).
The fuel-zero branch mirrors the unreachable raise after the loop
(generator.py lines 103-105). -/
def retry_on_overload_go (f : Nat → Except ApiError α) :
    Nat → Nat → Nat → Except ApiError α × Nat × List Nat
  | 0, attempt, _ => (Except.error (ApiError.unexpected "loop exhausted"), attempt, [])
  | fuel + 1, attempt, delay =>
    match f attempt with
    | Except.ok v => (Except.ok v, attempt + 1, [])
    | Except.error (ApiError.unexpected m) =>
        (Except.error (ApiError.unexpected m), attempt + 1, [])
    | Except.error (ApiError.api none) =>
        (Except.error (ApiError.api none), attempt + 1, [])
    | Except.error (ApiError.api (some code)) =>
      if is_retryable_status code then
        if 0 < fuel then
          let r := retry_on_overload_go f fuel (attempt + 1) (delay * RETRY_BACKOFF)
          (r.1, r.2.1, delay :: r.2.2)
        else
          (Except.error (ApiError.api (some code)), attempt + 1, [])
      else
        (Except.error (ApiError.api (some code)), attempt + 1, [])

/-- retry_on_overload (generator.py lines 59-105). -/
def retry_on_overload (f : Nat → Except ApiError α) :
    Except ApiError α × Nat × List Nat :=
  retry_on_overload_go f MAX_RETRIES 0 RETRY_DELAY

/-! ## Prompt Builder (generator.py, generate_next_scene request construction) -/

/-- One entry of the conversation_history list built by game.advance_scene
(game.py lines 118-129). -/
structure ConversationEntry where
  scene_id : Int
  scene_text : String
  prompt : Option PromptType
  player_action : Option String
deriving DecidableEq, Repr

/-- The conversation_history construction of game.advance_scene (game.py lines
118-129): scene i is paired with player_actions[i] when that index exists and
with None otherwise. -/
def build_conversation_history (scenes : List Scene)
    (player_actions : List String) : List ConversationEntry :=
  scenes.enum.map (fun p =>
    { scene_id := p.2.id, scene_text := p.2.text, prompt := p.2.prompt,
      player_action := player_actions[p.1]? })

/-- The distinct text blocks interpolated into the generation request f-string
of generate_next_scene (generator.py lines 1144-1172), in source order. -/
inductive RequestBlock where
  | preamble (scenario_name : String) (scenario_details : String)
  | characterSheets (characters : List Character)
  | historyContext (history : List ConversationEntry)
  | currentAction (player_action : String)
  | diceCheckResolutionRules
  | impossibleActionRules
  | sceneGenerationPromptRules
deriving DecidableEq, Repr

/-- The dice_check_rules condition of generate_next_scene (generator.py lines
1137-1142): the resolution-rule text is non-empty exactly when the last
history entry exists, carries a prompt, and that prompt has type dice_check. -/
def dice_check_rules_included (conversation_history : List ConversationEntry) :
    Bool :=
  match conversation_history.getLast? with
  | some entry =>
    match entry.prompt with
    | some p => p.type = PromptTypeEnum.dice_check
    | none => false
  | none => false

/-- The generation request of generate_next_scene (generator.py lines
1098-1172), abstracted to the ordered list of its interpolated blocks:
history_context is included when the history is non-empty (lines 1099-1130),
action_context when the player action is a non-empty string (lines 1133-1135),
the dice-check resolution rules exactly when dice_check_rules_included holds
(lines 1137-1142), and the impossible-action and scene-generation prompt rules
always (lines 1167-1169). -/
def build_next_scene_request (scenario_name scenario_details : String)
    (characters : List Character) (player_action : Option String)
    (conversation_history : List ConversationEntry) : List RequestBlock :=
  [RequestBlock.preamble scenario_name scenario_details,
   RequestBlock.characterSheets characters]
  ++ (if conversation_history.isEmpty then []
      else [RequestBlock.historyContext conversation_history])
  ++ (match player_action with
      | some a => if a = "" then [] else [RequestBlock.currentAction a]
      | none => [])
  ++ (if dice_check_rules_included conversation_history then
        [RequestBlock.diceCheckResolutionRules]
      else [])
  ++ [RequestBlock.impossibleActionRules, RequestBlock.sceneGenerationPromptRules]

/-! ## Scene assembly and downstream assets (generator.py) -/

/-- _make_scene (generator.py lines 686-709). -/
def make_scene (scene_id : Int) (scene_text : String) (prompt : PromptType)
    (image_path : Option String) (game_status : GameStatus) : Scene :=
  { id := scene_id, text := scene_text, prompt := some prompt,
    image_path := image_path, voiceover_path := none, visible_asset_ids := [],
    game_status := game_status }

/-- The post-gather handling of one downstream asset-generation task
(generator.py lines 1213-1223 and 1021-1031): the two tasks are gathered with
return_exceptions set, and a task that raised is treated as having produced no
file; a task may also return no file itself. -/
def downstream_result (r : Except String (Option String)) : Option String :=
  match r with
  | Except.error _ => none
  | Except.ok p => p

/-- Web-path conversion for the scene image (generator.py lines 1226-1228). -/
def scene_image_web_path (game_id : String)
    (r : Except String (Option String)) : Option String :=
  (downstream_result r).map (fun n => "/static/scenes/" ++ game_id ++ "/" ++ n)

/-- Web-path conversion for the voiceover (generator.py lines 1230-1232). -/
def scene_voiceover_web_path (game_id : String)
    (r : Except String (Option String)) : Option String :=
  (downstream_result r).map (fun n => "/static/voiceovers/" ++ game_id ++ "/" ++ n)

/-- generate_next_scene (generator.py lines 1053-1242). The narrative
generation call through the retry executor is injected as genResult, and the
two concurrently gathered downstream generations as imageResult and
voiceResult. A failure of the narrative call propagates; downstream failures
are mapped to missing references by downstream_result. -/
def generate_next_scene (game_id scenario_name scenario_details : String)
    (characters : List Character) (last_scene_id : Int)
    (player_action : Option String)
    (conversation_history : List ConversationEntry)
    (genResult : Except ApiError GeneratedScene)
    (imageResult voiceResult : Except String (Option String)) :
    Except ApiError (Scene × List Character) :=
  let _request := build_next_scene_request scenario_name scenario_details
    characters player_action conversation_history
  match genResult with
  | Except.error e => Except.error e
  | Except.ok generated =>
    let updated_characters :=
      apply_character_updates characters generated.updated_characters
    let scene := make_scene (last_scene_id + 1) generated.scene_text
      generated.prompt (scene_image_web_path game_id imageResult)
      generated.game_status
    Except.ok
      ({ scene with voiceover_path := scene_voiceover_web_path game_id voiceResult },
        updated_characters)

/-- generate_opening_scene (generator.py lines 898-1050), with the backend
results injected as in generate_next_scene; the scene id is the scene_id
argument, which the game.py call site leaves at its default 1. -/
def generate_opening_scene (game_id : String) (characters : List Character)
    (genResult : Except ApiError GeneratedScene)
    (imageResult voiceResult : Except String (Option String))
    (scene_id : Int) : Except ApiError (Scene × List Character) :=
  match genResult with
  | Except.error e => Except.error e
  | Except.ok generated =>
    let updated_characters :=
      apply_character_updates characters generated.updated_characters
    let scene := make_scene scene_id generated.scene_text
      generated.prompt (scene_image_web_path game_id imageResult)
      generated.game_status
    Except.ok
      ({ scene with voiceover_path := scene_voiceover_web_path game_id voiceResult },
        updated_characters)

/-! ## Party creation (generator.py, generate_characters, lines 453-563) -/

/-- The Character constructed for one generated concept in generate_characters
(generator.py lines 542-559): both health fields are hard-coded to 100, and
the current_health field of the concept returned by the backend is ignored. -/
def character_from_concept (game_id : String) (concept : GeneratedCharacter)
    (image_file : Option String) : Character :=
  { name := concept.name, strength := concept.strength,
    intelligence := concept.intelligence, agility := concept.agility,
    maximum_health := 100, current_health := 100,
    backstory := concept.backstory, appearance := concept.appearance,
    personality := concept.personality, skills := concept.skills,
    inventory := concept.inventory,
    image_path := image_file.map
      (fun n => "/static/characters/" ++ game_id ++ "/" ++ n) }

/-- The final character list built by generate_characters (generator.py lines
534-560) from the generated concepts zipped with their image results. -/
def generate_characters_build (game_id : String)
    (concepts : List GeneratedCharacter) (images : List (Option String)) :
    List Character :=
  (concepts.zip images).map (fun ci => character_from_concept game_id ci.1 ci.2)

/-! ## Game aggregate transitions (src/core/game.py) -/

/-- get_current_scene (game.py lines 92-97), restricted to the scene lookup:
the last scene of the list, if any. -/
def get_current_scene (g : Game) : Option Scene :=
  g.scenes.getLast?

/-- advance_scene (game.py lines 100-143). A present player action is appended
to the action history BEFORE the generation call (lines 112-114); the
conversation history is then built and generator.generate_next_scene invoked.
The returned pair is the state of the Game object aliased by the store after
the call — on a failed generation the earlier player_actions mutation
persists — together with the outcome of the call. -/
def advance_scene (g : Game) (player_action : Option String)
    (genResult : Except ApiError GeneratedScene)
    (imageResult voiceResult : Except String (Option String)) :
    Game × Except ApiError Scene :=
  let last_id : Int :=
    match get_current_scene g with
    | some s => s.id
    | none => 0
  let g1 :=
    match player_action with
    | some a => { g with player_actions := g.player_actions ++ [a] }
    | none => g
  let history := build_conversation_history g1.scenes g1.player_actions
  match generate_next_scene g.id (g.scenario_name.getD "")
      (g.scenario_details.getD "") g1.characters last_id player_action history
      genResult imageResult voiceResult with
  | Except.error e => (g1, Except.error e)
  | Except.ok (scene, updated) =>
    ({ g1 with scenes := g1.scenes ++ [scene], characters := updated },
      Except.ok scene)

/-- The advance-scene reachability relation of the orchestrator state machine:
a game started by generate_opening_scene on a fresh game (game.py lines
66-84), closed under successful advance_scene transitions with arbitrary,
possibly absent, player actions. -/
inductive Reachable : Game → Prop where
  | start (g : Game) (genResult : GeneratedScene)
      (imageResult voiceResult : Except String (Option String))
      (opening : Scene) (chars : List Character)
      (hscenes : g.scenes = []) (hactions : g.player_actions = [])
      (hok : generate_opening_scene g.id g.characters (Except.ok genResult)
          imageResult voiceResult 1 = Except.ok (opening, chars)) :
      Reachable { g with scenes := g.scenes ++ [opening], characters := chars }
  | advance (g : Game) (player_action : Option String)
      (genResult : Except ApiError GeneratedScene)
      (imageResult voiceResult : Except String (Option String)) (s : Scene)
      (hr : Reachable g)
      (hok : (advance_scene g player_action genResult imageResult voiceResult).2
          = Except.ok s) :
      Reachable (advance_scene g player_action genResult imageResult voiceResult).1

/-- Reachability restricted to runs in which every advance supplies a present
player action. -/
inductive ReachableAllActions : Game → Prop where
  | start (g : Game) (genResult : GeneratedScene)
      (imageResult voiceResult : Except String (Option String))
      (opening : Scene) (chars : List Character)
      (hscenes : g.scenes = []) (hactions : g.player_actions = [])
      (hok : generate_opening_scene g.id g.characters (Except.ok genResult)
          imageResult voiceResult 1 = Except.ok (opening, chars)) :
      ReachableAllActions { g with scenes := g.scenes ++ [opening], characters := chars }
  | advance (g : Game) (a : String)
      (genResult : Except ApiError GeneratedScene)
      (imageResult voiceResult : Except String (Option String)) (s : Scene)
      (hr : ReachableAllActions g)
      (hok : (advance_scene g (some a) genResult imageResult voiceResult).2
          = Except.ok s) :
      ReachableAllActions (advance_scene g (some a) genResult imageResult voiceResult).1

/-- The ordering property of a scene list: its ids are exactly 1, 2, ... in
order. -/
def scene_ids_ok (l : List Scene) : Prop :=
  l.map Scene.id = (List.range l.length).map (fun i : Nat => (i : Int) + 1)

instance (l : List Scene) : Decidable (scene_ids_ok l) :=
  inferInstanceAs (Decidable (_ = _))

/-- Sample data for concrete runs of the transitions. -/
def sample_prompt : PromptType :=
  { type := PromptTypeEnum.action, dice_type := none, target_character := none,
    target_characters := none, prompt_text := "What do you do" }

/-- A fresh game as created by create_new_game followed by scenario selection
and detail generation (game.py lines 18-63). -/
def fresh_game : Game :=
  { id := "g1", players := 1, scenario_name := some "Siege of Emberhold",
    characters := [], scenario_details := some "details", scenes := [],
    player_actions := [], assets := [] }

def opening_generated : GeneratedScene :=
  { scene_text := "opening", prompt := sample_prompt, updated_characters := [],
    assets_present := [], game_status := GameStatus.ongoing }

def opening_scene_c : Scene :=
  { id := 1, text := "opening", prompt := some sample_prompt,
    image_path := none, voiceover_path := none, visible_asset_ids := [],
    game_status := GameStatus.ongoing }

/-- fresh_game after its opening-scene transition. -/
def started_game : Game :=
  { fresh_game with
    scenes := fresh_game.scenes ++ [opening_scene_c],
    characters := ([] : List Character) }

def next_generated : GeneratedScene :=
  { scene_text := "next", prompt := sample_prompt, updated_characters := [],
    assets_present := [], game_status := GameStatus.ongoing }

def next_scene_c : Scene :=
  { id := 2, text := "next", prompt := some sample_prompt, image_path := none,
    voiceover_path := none, visible_asset_ids := [], game_status := GameStatus.ongoing }

def asset_reported : AssetReference :=
  { name := "Elder Maelis", type := AssetKind.npc,
    description := "an old sage", is_visible := true }

def asset_generated : GeneratedScene :=
  { scene_text := "next", prompt := sample_prompt, updated_characters := [],
    assets_present := [asset_reported], game_status := GameStatus.ongoing }

/-! ## Merger lemmas -/

lemma apply_character_updates_nil (cs : List Character) :
    apply_character_updates cs [] = cs := rfl

lemma apply_character_updates_cons (cs : List Character)
    (u : GeneratedCharacter) (us : List GeneratedCharacter) :
    apply_character_updates cs (u :: us)
      = apply_character_updates (apply_update cs u) us := rfl

lemma update_character_healthInv (char : Character) (u : GeneratedCharacter)
    (h : HealthInv char) : HealthInv (update_character char u) := by
  unfold HealthInv at h
  unfold HealthInv update_character
  dsimp only
  split
  · exact h
  · exact ⟨le_max_left 0 _, max_le (h.1.trans h.2) (min_le_right _ _)⟩

lemma apply_update_first_match_healthInv (cs : List Character)
    (u : GeneratedCharacter) (h : ∀ c ∈ cs, HealthInv c) :
    ∀ c ∈ apply_update_first_match cs u, HealthInv c := by
  induction cs with
  | nil => simp [apply_update_first_match]
  | cons a cs ih =>
    intro c hc
    rw [apply_update_first_match] at hc
    split at hc
    · rcases List.mem_cons.mp hc with h1 | h1
      · exact h1 ▸ update_character_healthInv a u (h a (List.mem_cons_self a cs))
      · exact h c (List.mem_cons_of_mem a h1)
    · rcases List.mem_cons.mp hc with h1 | h1
      · exact h1 ▸ h a (List.mem_cons_self a cs)
      · exact ih (fun x hx => h x (List.mem_cons_of_mem a hx)) c h1

lemma apply_update_healthInv (cs : List Character) (u : GeneratedCharacter)
    (h : ∀ c ∈ cs, HealthInv c) : ∀ c ∈ apply_update cs u, HealthInv c := by
  intro c hc
  rw [apply_update, List.mem_reverse] at hc
  exact apply_update_first_match_healthInv cs.reverse u
    (fun x hx => h x (List.mem_reverse.mp hx)) c hc

lemma roster_frame_update_character (c : Character) (u : GeneratedCharacter) :
    roster_frame (update_character c u) = roster_frame c := rfl

lemma map_frame_apply_update_first_match (cs : List Character)
    (u : GeneratedCharacter) :
    (apply_update_first_match cs u).map roster_frame = cs.map roster_frame := by
  induction cs with
  | nil => rfl
  | cons a cs ih =>
    rw [apply_update_first_match]
    split
    · simp [roster_frame_update_character]
    · simp [ih]

lemma map_frame_apply_update (cs : List Character) (u : GeneratedCharacter) :
    (apply_update cs u).map roster_frame = cs.map roster_frame := by
  rw [apply_update, List.map_reverse, map_frame_apply_update_first_match,
    List.map_reverse, List.reverse_reverse]

lemma map_frame_apply_character_updates (cs : List Character)
    (us : List GeneratedCharacter) :
    (apply_character_updates cs us).map roster_frame = cs.map roster_frame := by
  induction us generalizing cs with
  | nil => rfl
  | cons u us ih =>
    rw [apply_character_updates_cons, ih, map_frame_apply_update]

lemma length_apply_update (cs : List Character) (u : GeneratedCharacter) :
    (apply_update cs u).length = cs.length := by
  have h := congrArg List.length (map_frame_apply_update cs u)
  simpa using h

lemma getElem?_apply_update_first_match (cs : List Character)
    (u : GeneratedCharacter) (i : Nat)
    (h : ∀ c, cs[i]? = some c → c.name ≠ u.name) :
    (apply_update_first_match cs u)[i]? = cs[i]? := by
  induction cs generalizing i with
  | nil => rfl
  | cons a cs ih =>
    rw [apply_update_first_match]
    split
    · cases i with
      | zero =>
        exact absurd (by assumption) (h a (by simp))
      | succ j => simp only [List.getElem?_cons_succ]
    · cases i with
      | zero => simp only [List.getElem?_cons_zero]
      | succ j =>
        simp only [List.getElem?_cons_succ]
        exact ih j (fun c hc => h c (by simpa using hc))

lemma getElem?_apply_update (cs : List Character) (u : GeneratedCharacter)
    (i : Nat) (h : ∀ c, cs[i]? = some c → c.name ≠ u.name) :
    (apply_update cs u)[i]? = cs[i]? := by
  by_cases hi : i < cs.length
  · have hrevlen : (apply_update_first_match cs.reverse u).length = cs.length := by
      have := congrArg List.length (map_frame_apply_update_first_match cs.reverse u)
      simpa using this
    have hj : cs.length - 1 - i < cs.length := by omega
    have hrev : cs.reverse[cs.length - 1 - i]? = cs[i]? := by
      rw [List.getElem?_reverse (by simpa using hj)]
      congr 1
      omega
    rw [apply_update, List.getElem?_reverse (by omega),
      getElem?_apply_update_first_match _ _ _ ?hname, hrevlen, hrev]
    case hname =>
      intro c hc
      rw [hrevlen] at hc
      rw [hrev] at hc
      exact h c hc
  · have hlen : (apply_update cs u).length = cs.length := length_apply_update cs u
    rw [List.getElem?_eq_none (by omega), List.getElem?_eq_none (by omega)]

lemma getElem?_apply_character_updates (cs : List Character)
    (us : List GeneratedCharacter) (i : Nat)
    (h : ∀ c, cs[i]? = some c → c.name ∉ us.map GeneratedCharacter.name) :
    (apply_character_updates cs us)[i]? = cs[i]? := by
  induction us generalizing cs with
  | nil => rfl
  | cons u us ih =>
    rw [apply_character_updates_cons]
    have h1 : (apply_update cs u)[i]? = cs[i]? :=
      getElem?_apply_update cs u i (fun c hc => by
        have hmem := h c hc
        simp only [List.map_cons, List.mem_cons] at hmem
        exact fun e => hmem (Or.inl e))
    have h2 : (apply_character_updates (apply_update cs u) us)[i]?
        = (apply_update cs u)[i]? := by
      apply ih
      intro c hc
      rw [h1] at hc
      have hmem := h c hc
      simp only [List.map_cons, List.mem_cons] at hmem
      exact fun e => hmem (Or.inr e)
    rw [h2, h1]

/-- Claim C5: for every roster of characters each satisfying the health
invariant and every list of proposed updates with arbitrary proposed
current_health values, every character in the merged roster still satisfies
0 <= current_health <= maximum_health. -/
theorem merge_health_clamping (characters : List Character)
    (updates : List GeneratedCharacter)
    (h : ∀ c ∈ characters, HealthInv c) :
    ∀ c ∈ apply_character_updates characters updates, HealthInv c := by
  induction updates generalizing characters with
  | nil => simpa [apply_character_updates_nil] using h
  | cons u us ih =>
    rw [apply_character_updates_cons]
    exact ih (apply_update characters u) (apply_update_healthInv characters u h)

/-- Witness for C5: a proposed negative health value is clamped to 0 and the
invariant holds for the character produced by a concrete merge. -/
theorem merge_health_clamping_witness :
    HealthInv
      { name := "Ari", strength := 12, intelligence := 9, agility := 11,
        maximum_health := 100, current_health := 0, backstory := "b",
        appearance := "a", personality := "p", skills := [], inventory := [],
        image_path := none } :=
  merge_health_clamping
    [{ name := "Ari", strength := 10, intelligence := 10, agility := 10,
       maximum_health := 100, current_health := 50, backstory := "b",
       appearance := "a", personality := "p", skills := [], inventory := [],
       image_path := none }]
    [{ name := "Ari", strength := 12, intelligence := 9, agility := 11,
       current_health := -5, backstory := "b", appearance := "a",
       personality := "p", skills := [], inventory := [] }]
    (by decide) _ (by decide)

/-- Claim C8: the merge returns a roster with exactly the same character names
in the same order (unknown update names are never inserted), and every
character keeps its name, maximum_health and portrait reference; a character
whose name appears in no proposed update is carried over unchanged at its
position. -/
theorem merge_roster_preservation (characters : List Character)
    (updates : List GeneratedCharacter) :
    (apply_character_updates characters updates).map roster_frame
        = characters.map roster_frame
    ∧ ∀ (i : Nat) (c : Character), characters[i]? = some c →
        c.name ∉ updates.map GeneratedCharacter.name →
        (apply_character_updates characters updates)[i]? = some c := by
  constructor
  · exact map_frame_apply_character_updates characters updates
  · intro i c hc hname
    rw [getElem?_apply_character_updates characters updates i ?h]
    · exact hc
    case h =>
      intro x hx
      rw [hc] at hx
      cases hx
      exact hname

/-- Witness for C8: a concrete merge with one known-name update and one
unknown-name update preserves the roster frame and carries the untouched
second character over unchanged. -/
theorem merge_roster_preservation_witness :
    (apply_character_updates
        [{ name := "Ari", strength := 10, intelligence := 10, agility := 10,
           maximum_health := 100, current_health := 50, backstory := "b",
           appearance := "a", personality := "p", skills := [], inventory := [],
           image_path := some "ari.png" },
         { name := "Bo", strength := 8, intelligence := 14, agility := 12,
           maximum_health := 100, current_health := 90, backstory := "bb",
           appearance := "ba", personality := "bp", skills := ["Stealth"],
           inventory := ["rope"], image_path := none }]
        [{ name := "Ari", strength := 11, intelligence := 10, agility := 10,
           current_health := 40, backstory := "b", appearance := "a",
           personality := "p", skills := [], inventory := ["sword"] },
         { name := "Zed", strength := 1, intelligence := 1, agility := 1,
           current_health := 1, backstory := "z", appearance := "z",
           personality := "z", skills := [], inventory := [] }]).map roster_frame
      = [("Ari", (100 : Int), some "ari.png"), ("Bo", (100 : Int), none)]
    ∧ (apply_character_updates
        [{ name := "Ari", strength := 10, intelligence := 10, agility := 10,
           maximum_health := 100, current_health := 50, backstory := "b",
           appearance := "a", personality := "p", skills := [], inventory := [],
           image_path := some "ari.png" },
         { name := "Bo", strength := 8, intelligence := 14, agility := 12,
           maximum_health := 100, current_health := 90, backstory := "bb",
           appearance := "ba", personality := "bp", skills := ["Stealth"],
           inventory := ["rope"], image_path := none }]
        [{ name := "Ari", strength := 11, intelligence := 10, agility := 10,
           current_health := 40, backstory := "b", appearance := "a",
           personality := "p", skills := [], inventory := ["sword"] },
         { name := "Zed", strength := 1, intelligence := 1, agility := 1,
           current_health := 1, backstory := "z", appearance := "z",
           personality := "z", skills := [], inventory := [] }])[1]?
      = some { name := "Bo", strength := 8, intelligence := 14, agility := 12,
               maximum_health := 100, current_health := 90, backstory := "bb",
               appearance := "ba", personality := "bp", skills := ["Stealth"],
               inventory := ["rope"], image_path := none } := by
  constructor
  · rw [(merge_roster_preservation _ _).1]
    decide
  · exact (merge_roster_preservation _ _).2 1 _ (by decide) (by decide)

/-! ## Retry executor lemmas -/

lemma retry_delays_cons (delay k : Nat) :
    delay :: (List.range k).map (fun i => delay * RETRY_BACKOFF * RETRY_BACKOFF ^ i)
      = (List.range (k + 1)).map (fun i => delay * RETRY_BACKOFF ^ i) := by
  rw [List.range_succ_eq_map, List.map_cons, List.map_map]
  simp only [pow_zero, mul_one]
  congr 1
  apply List.map_congr_left
  intro a _
  simp only [Function.comp_apply, Nat.succ_eq_add_one, pow_succ]
  ring

lemma retry_go_succeeds (f : Nat → Except ApiError α) (v : α) :
    ∀ (k fuel attempt delay : Nat), k < fuel →
      (∀ j, j < k → ∃ c, f (attempt + j) = Except.error (ApiError.api (some c)) ∧
          is_retryable_status c = true) →
      f (attempt + k) = Except.ok v →
      retry_on_overload_go f fuel attempt delay
        = (Except.ok v, attempt + k + 1,
            (List.range k).map (fun i => delay * RETRY_BACKOFF ^ i)) := by
  intro k
  induction k with
  | zero =>
    intro fuel attempt delay hfuel hfail hok
    obtain ⟨m, rfl⟩ : ∃ m, fuel = m + 1 := ⟨fuel - 1, by omega⟩
    simp only [Nat.add_zero] at hok
    rw [retry_on_overload_go, hok]
    simp
  | succ k ih =>
    intro fuel attempt delay hfuel hfail hok
    obtain ⟨m, rfl⟩ : ∃ m, fuel = m + 1 := ⟨fuel - 1, by omega⟩
    obtain ⟨c, hc, hcr⟩ := hfail 0 (Nat.succ_pos k)
    simp only [Nat.add_zero] at hc
    have hm : 0 < m := by omega
    have hfail2 : ∀ j, j < k →
        ∃ c2, f (attempt + 1 + j) = Except.error (ApiError.api (some c2)) ∧
          is_retryable_status c2 = true := by
      intro j hj
      rw [show attempt + 1 + j = attempt + (j + 1) by omega]
      exact hfail (j + 1) (by omega)
    have hok2 : f (attempt + 1 + k) = Except.ok v := by
      rw [show attempt + 1 + k = attempt + (k + 1) by omega]
      exact hok
    rw [retry_on_overload_go, hc]
    simp only [hcr, if_true, hm, if_pos]
    rw [ih m (attempt + 1) (delay * RETRY_BACKOFF) (by omega) hfail2 hok2]
    simp only [Prod.mk.injEq, true_and]
    exact ⟨by omega, retry_delays_cons delay k⟩

lemma retry_go_exhausts (f : Nat → Except ApiError α) (cs : Nat → Int) :
    ∀ (fuel attempt delay : Nat), 0 < fuel →
      (∀ j, j < fuel →
          f (attempt + j) = Except.error (ApiError.api (some (cs (attempt + j)))) ∧
          is_retryable_status (cs (attempt + j)) = true) →
      retry_on_overload_go f fuel attempt delay
        = (Except.error (ApiError.api (some (cs (attempt + fuel - 1)))), attempt + fuel,
            (List.range (fuel - 1)).map (fun i => delay * RETRY_BACKOFF ^ i)) := by
  intro fuel
  induction fuel with
  | zero => intro attempt delay h; omega
  | succ m ih =>
    intro attempt delay _ hfail
    obtain ⟨hc, hcr⟩ := hfail 0 (by omega)
    simp only [Nat.add_zero] at hc hcr
    rw [retry_on_overload_go, hc]
    by_cases hm : 0 < m
    · obtain ⟨k, rfl⟩ : ∃ k, m = k + 1 := ⟨m - 1, by omega⟩
      simp only [hcr, if_true, hm, if_pos]
      have hfail2 : ∀ j, j < k + 1 →
          f (attempt + 1 + j)
              = Except.error (ApiError.api (some (cs (attempt + 1 + j)))) ∧
            is_retryable_status (cs (attempt + 1 + j)) = true := by
        intro j hj
        have h2 := hfail (j + 1) (by omega)
        rwa [show attempt + (j + 1) = attempt + 1 + j by omega] at h2
      rw [ih (attempt + 1) (delay * RETRY_BACKOFF) hm hfail2]
      simp only [Prod.mk.injEq]
      refine ⟨by rw [show attempt + 1 + (k + 1) - 1 = attempt + (k + 1 + 1) - 1 by omega],
        by omega, ?_⟩
      simpa using retry_delays_cons delay k
    · have hm0 : m = 0 := by omega
      subst hm0
      simp [hcr]

/-- Claim C3: the Retry Executor returns the wrapped operation result after
N + 1 attempts when the operation fails with a transient-status error exactly
N < 5 times and then succeeds, with the inter-attempt delay doubling from 3
each retry; it raises the last error after 5 consecutive transient failures;
and it propagates a non-transient error immediately on the first attempt. -/
theorem retry_executor_behavior :
    (∀ (α : Type) (f : Nat → Except ApiError α) (v : α) (N : Nat),
        N < MAX_RETRIES →
        (∀ i, i < N → ∃ c, f i = Except.error (ApiError.api (some c)) ∧
            is_retryable_status c = true) →
        f N = Except.ok v →
        retry_on_overload f
          = (Except.ok v, N + 1,
              (List.range N).map (fun i => RETRY_DELAY * RETRY_BACKOFF ^ i)))
    ∧ (∀ (α : Type) (f : Nat → Except ApiError α) (cs : Nat → Int),
        (∀ i, i < MAX_RETRIES →
            f i = Except.error (ApiError.api (some (cs i))) ∧
            is_retryable_status (cs i) = true) →
        retry_on_overload f
          = (Except.error (ApiError.api (some (cs 4))), MAX_RETRIES, [3, 6, 12, 24]))
    ∧ (∀ (α : Type) (f : Nat → Except ApiError α) (code : Int),
        is_retryable_status code = false →
        f 0 = Except.error (ApiError.api (some code)) →
        retry_on_overload f = (Except.error (ApiError.api (some code)), 1, [])) := by
  refine ⟨?_, ?_, ?_⟩
  · intro α f v N hN hfail hok
    have h := retry_go_succeeds f v N MAX_RETRIES 0 RETRY_DELAY hN
      (by simpa using hfail) (by simpa using hok)
    simpa [retry_on_overload] using h
  · intro α f cs hfail
    have h := retry_go_exhausts f cs MAX_RETRIES 0 RETRY_DELAY (by decide)
      (by simpa using hfail)
    have hd : (List.range (MAX_RETRIES - 1)).map
        (fun i => RETRY_DELAY * RETRY_BACKOFF ^ i) = [3, 6, 12, 24] := by decide
    have h4 : (0 : Nat) + MAX_RETRIES - 1 = 4 := by decide
    rw [retry_on_overload, h, hd, h4]
    simp
  · intro α f code hcode hf0
    have h5 : MAX_RETRIES = 4 + 1 := rfl
    rw [retry_on_overload, h5, retry_on_overload_go, hf0]
    simp [hcode]

/-- Witness for C3: concrete fake backends exercising the
two-transient-failures-then-success, five-transient-failures, and
non-transient-bad-request cases. -/
theorem retry_executor_behavior_witness :
    retry_on_overload (fun i =>
        if i < 2 then (Except.error (ApiError.api (some 503)) : Except ApiError Nat)
        else Except.ok 7)
      = (Except.ok 7, 3, [3, 6])
    ∧ retry_on_overload
        (fun _ : Nat => (Except.error (ApiError.api (some 429)) : Except ApiError Nat))
      = (Except.error (ApiError.api (some 429)), 5, [3, 6, 12, 24])
    ∧ retry_on_overload
        (fun _ : Nat => (Except.error (ApiError.api (some 400)) : Except ApiError Nat))
      = (Except.error (ApiError.api (some 400)), 1, []) := by
  refine ⟨?_, ?_, ?_⟩
  · have h := retry_executor_behavior.1 Nat
      (fun i => if i < 2 then Except.error (ApiError.api (some 503)) else Except.ok 7)
      7 2 (by decide)
      (fun i hi => ⟨503, by simp [hi], by decide⟩)
      (by simp)
    rw [h]
    rfl
  · have h := retry_executor_behavior.2.1 Nat
      (fun _ => Except.error (ApiError.api (some 429))) (fun _ => 429)
      (fun i _ => ⟨rfl, by simp [is_retryable_status]⟩)
    exact h
  · exact retry_executor_behavior.2.2 Nat
      (fun _ => Except.error (ApiError.api (some 400))) 400 (by decide) rfl

/-- Claim C4: constructing a Prompt of type dice_check succeeds exactly when the
dice kind is non-null and exactly one of the single target and the non-empty
multi-target list is set; over the four combinations of (single set?, multi
set?) it fails exactly for both-set and neither-set. -/
theorem dice_check_construction_iff
    (dk : Option DiceType) (tc : Option String) (tcs : Option (List String))
    (txt : String) :
    (PromptType.validate_dice_check_targeting
        ⟨PromptTypeEnum.dice_check, dk, tc, tcs, txt⟩).isOk = true ↔
      (dk.isSome = true ∧
        PromptType.has_single_target ⟨PromptTypeEnum.dice_check, dk, tc, tcs, txt⟩ ≠
          PromptType.has_multi_target ⟨PromptTypeEnum.dice_check, dk, tc, tcs, txt⟩) := by
  cases dk <;> cases tc <;> rcases tcs with _ | l <;>
    simp [PromptType.validate_dice_check_targeting, PromptType.has_single_target,
      PromptType.has_multi_target, Except.isOk, Except.toBool] <;>
    cases l <;> simp

lemma dice_check_rules_included_iff (ch : List ConversationEntry) :
    dice_check_rules_included ch = true ↔
      ∃ entry p, ch.getLast? = some entry ∧ entry.prompt = some p ∧
        p.type = PromptTypeEnum.dice_check := by
  unfold dice_check_rules_included
  rcases hl : ch.getLast? with _ | entry
  · simp
  · rcases hp : entry.prompt with _ | p
    · simp [hp]
    · simp [hp, decide_eq_true_eq]

/-- Claim C6: the dice-check resolution rule block is included in the rendered
generation request of an advance-scene transition exactly when the last entry
of the conversation history carries a prompt of type dice_check; the right
hand side mentions only the last history entry, so prompts of earlier scenes
cannot influence the inclusion. -/
theorem dice_resolution_rules_iff (scenario_name scenario_details : String)
    (characters : List Character) (player_action : Option String)
    (conversation_history : List ConversationEntry) :
    RequestBlock.diceCheckResolutionRules
        ∈ build_next_scene_request scenario_name scenario_details characters
            player_action conversation_history
      ↔ ∃ entry p, conversation_history.getLast? = some entry ∧
          entry.prompt = some p ∧ p.type = PromptTypeEnum.dice_check := by
  rw [← dice_check_rules_included_iff]
  unfold build_next_scene_request
  rcases player_action with _ | a
  · cases hd : dice_check_rules_included conversation_history <;>
      by_cases he : conversation_history.isEmpty <;>
      simp [hd, he]
  · cases hd : dice_check_rules_included conversation_history <;>
      by_cases he : conversation_history.isEmpty <;>
      by_cases ha : a = "" <;>
      simp [hd, he, ha]

/-- Claim C9: when the narrative generation succeeds, a scene-generation
transition succeeds for every outcome of the two downstream asset generations,
producing the scene with the resolved references, and a failed downstream
generation resolves to a null reference — in both generate_next_scene and
generate_opening_scene. -/
theorem downstream_failure_degrades (game_id scenario_name scenario_details : String)
    (characters : List Character) (last_scene_id scene_id : Int)
    (player_action : Option String)
    (conversation_history : List ConversationEntry)
    (generated : GeneratedScene)
    (imageResult voiceResult : Except String (Option String)) (e : String) :
    (generate_next_scene game_id scenario_name scenario_details characters
        last_scene_id player_action conversation_history (Except.ok generated)
        imageResult voiceResult
      = Except.ok
          ({ id := last_scene_id + 1, text := generated.scene_text,
             prompt := some generated.prompt,
             image_path := scene_image_web_path game_id imageResult,
             voiceover_path := scene_voiceover_web_path game_id voiceResult,
             visible_asset_ids := [], game_status := generated.game_status },
            apply_character_updates characters generated.updated_characters))
    ∧ (generate_opening_scene game_id characters (Except.ok generated)
        imageResult voiceResult scene_id
      = Except.ok
          ({ id := scene_id, text := generated.scene_text,
             prompt := some generated.prompt,
             image_path := scene_image_web_path game_id imageResult,
             voiceover_path := scene_voiceover_web_path game_id voiceResult,
             visible_asset_ids := [], game_status := generated.game_status },
            apply_character_updates characters generated.updated_characters))
    ∧ scene_image_web_path game_id (Except.error e) = none
    ∧ scene_voiceover_web_path game_id (Except.error e) = none :=
  ⟨rfl, rfl, rfl, rfl⟩

/-- Claim C10: every character produced by party creation has
maximum_health = 100 and current_health = 100, for every concept the backend
returns (in particular for arbitrary concept current_health values), so at
creation time current_health equals maximum_health. -/
theorem party_creation_full_health (game_id : String)
    (concepts : List GeneratedCharacter) (images : List (Option String))
    (concept : GeneratedCharacter) (image_file : Option String) :
    (character_from_concept game_id concept image_file).maximum_health = 100
    ∧ (character_from_concept game_id concept image_file).current_health = 100
    ∧ (generate_characters_build game_id concepts images).all
        (fun c => c.maximum_health == 100 && c.current_health == 100) = true := by
  refine ⟨rfl, rfl, ?_⟩
  simp only [generate_characters_build, List.all_eq_true, List.mem_map]
  rintro b ⟨ci, _, rfl⟩
  rfl

/-- Claim C1 (amended): a failed narrative generation aborts the transition —
no scene is appended, characters and assets are unchanged, and the error
propagates — but a present player action has already been appended to
player_actions before the call and stays recorded, so with a present action
the stored Game is not byte-for-byte identical (with an absent action it is:
the appended list is empty). -/
theorem advance_failed_generation_state (g : Game) (player_action : Option String)
    (e : ApiError) (imageResult voiceResult : Except String (Option String)) :
    advance_scene g player_action (Except.error e) imageResult voiceResult
      = ({ g with player_actions := g.player_actions ++ player_action.toList },
          Except.error e) := by
  cases player_action <;> simp [advance_scene, generate_next_scene, Option.toList]

/-- Counterexample to claim C1 as stated: after a failed narrative-generation
call with a present player action, the Game held by the store differs from its
pre-transition state — the player action has been recorded. -/
theorem advance_atomicity_counterexample :
    (advance_scene started_game (some "I draw my sword")
        (Except.error (ApiError.api (some 400))) (Except.ok none)
        (Except.ok none)).2
      = Except.error (ApiError.api (some 400))
    ∧ (advance_scene started_game (some "I draw my sword")
        (Except.error (ApiError.api (some 400))) (Except.ok none)
        (Except.ok none)).1
      ≠ started_game := by
  decide

/-- Claim C7 (amended): a scene-generation transition performs no asset
bookkeeping — advance_scene leaves the asset mapping of the Game unchanged,
whatever assets the backend response reports as present. -/
theorem advance_assets_unchanged (g : Game) (player_action : Option String)
    (genResult : Except ApiError GeneratedScene)
    (imageResult voiceResult : Except String (Option String)) :
    (advance_scene g player_action genResult imageResult voiceResult).1.assets
      = g.assets := by
  rcases genResult with e | generated <;> cases player_action <;>
    simp [advance_scene, generate_next_scene]

/-- Counterexample to claim C7 as stated: after a successful transition whose
backend response reports the NPC Elder Maelis as present, the asset mapping of
the Game does not contain that name — assets_present is ignored. -/
theorem asset_bookkeeping_counterexample :
    (advance_scene started_game (some "talk") (Except.ok asset_generated)
        (Except.ok none) (Except.ok none)).2.isOk = true
    ∧ asset_reported ∈ asset_generated.assets_present
    ∧ asset_reported.name ∉
        ((advance_scene started_game (some "talk") (Except.ok asset_generated)
          (Except.ok none) (Except.ok none)).1.assets.map (fun kv => kv.2.name)) := by
  decide

/-! ## Ordering invariant lemmas -/

lemma generate_opening_scene_ok_spec (game_id : String) (chars : List Character)
    (generated : GeneratedScene) (img voice : Except String (Option String))
    (scene_id : Int) (opening : Scene) (updated : List Character)
    (hok : generate_opening_scene game_id chars (Except.ok generated) img voice
        scene_id = Except.ok (opening, updated)) :
    opening.id = scene_id := by
  simp only [generate_opening_scene, make_scene, Except.ok.injEq, Prod.mk.injEq] at hok
  obtain ⟨h1, h2⟩ := hok
  rw [← h1]

lemma advance_scene_ok_spec (g : Game) (player_action : Option String)
    (genResult : Except ApiError GeneratedScene)
    (imageResult voiceResult : Except String (Option String)) (s : Scene)
    (hok : (advance_scene g player_action genResult imageResult voiceResult).2
        = Except.ok s) :
    (advance_scene g player_action genResult imageResult voiceResult).1.scenes
        = g.scenes ++ [s]
    ∧ s.id = (match g.scenes.getLast? with | some t => t.id | none => 0) + 1
    ∧ (advance_scene g player_action genResult imageResult voiceResult).1.player_actions
        = g.player_actions ++ player_action.toList := by
  rcases genResult with e | generated
  · exfalso
    cases player_action <;>
      simp [advance_scene, generate_next_scene] at hok
  · cases player_action <;>
      simp only [advance_scene, generate_next_scene, make_scene,
        get_current_scene, Except.ok.injEq] at hok ⊢ <;>
      simp [← hok, Option.toList]

lemma scene_ids_ok_singleton (s : Scene) (h : s.id = 1) : scene_ids_ok [s] := by
  simp only [scene_ids_ok, List.map_singleton, h, List.length_singleton]
  decide

lemma scene_ids_ok_last (l : List Scene) (hl : scene_ids_ok l) :
    (match l.getLast? with | some t => t.id | none => 0) = (l.length : Int) := by
  rcases hln : l.getLast? with _ | t
  · have h0 : l = [] := List.getLast?_eq_none_iff.mp hln
    subst h0
    rfl
  · obtain ⟨m, hm⟩ : ∃ m, l.length = m + 1 := by
      cases l with
      | nil => simp at hln
      | cons a as => exact ⟨as.length, rfl⟩
    have h2 := congrArg List.getLast? hl
    rw [List.getLast?_map, List.getLast?_map, hln, hm, List.range_succ,
      List.getLast?_concat] at h2
    simp only [Option.map_some', Option.some.injEq] at h2
    show t.id = (l.length : Int)
    rw [h2, hm]
    push_cast
    ring

lemma scene_ids_ok_append (l : List Scene) (s : Scene) (hl : scene_ids_ok l)
    (hs : s.id = (match l.getLast? with | some t => t.id | none => 0) + 1) :
    scene_ids_ok (l ++ [s]) := by
  have hlast := scene_ids_ok_last l hl
  unfold scene_ids_ok at hl ⊢
  rw [List.map_append, List.length_append, List.map_singleton,
    show l.length + [s].length = Nat.succ l.length by simp,
    List.range_succ, List.map_append, List.map_singleton, hl]
  rw [hlast] at hs
  rw [hs]

/-- Claim C2 (amended): for every reachable game the scene ids are exactly
1, 2, ... in order (each appended scene has id = previous id + 1 starting at
1), and len(player_actions) = len(scenes) - 1 holds for every game reachable
by advances that all supply a present player action; an advance invoked with
an absent (None) action appends a scene without appending an action and breaks
that equality. -/
theorem advance_ordering_invariant :
    (∀ g, Reachable g → scene_ids_ok g.scenes)
    ∧ (∀ g, ReachableAllActions g →
        g.player_actions.length = g.scenes.length - 1) := by
  constructor
  · intro g hr
    induction hr with
    | start g genR img voice opening chars hscenes hactions hok =>
      show scene_ids_ok (g.scenes ++ [opening])
      rw [hscenes, List.nil_append]
      exact scene_ids_ok_singleton opening
        (generate_opening_scene_ok_spec g.id g.characters genR img voice 1
          opening chars hok)
    | advance g a genR img voice s hr hok ih =>
      obtain ⟨h1, h2, h3⟩ := advance_scene_ok_spec g a genR img voice s hok
      rw [h1]
      exact scene_ids_ok_append g.scenes s ih h2
  · intro g hr
    have hlen : g.scenes.length = g.player_actions.length + 1 := by
      induction hr with
      | start g genR img voice opening chars hscenes hactions hok =>
        show (g.scenes ++ [opening]).length = g.player_actions.length + 1
        rw [hscenes, hactions]
        rfl
      | advance g a genR img voice s hr hok ih =>
        obtain ⟨h1, h2, h3⟩ := advance_scene_ok_spec g (some a) genR img voice s hok
        rw [h1, h3]
        simp [Option.toList]
        omega
    omega

/-- Counterexample to claim C2 as stated: a successful advance invoked with an
absent (None) player action yields a reachable game with two scenes and zero
recorded actions, for which len(player_actions) = len(scenes) - 1 fails. -/
theorem advance_ordering_counterexample :
    Reachable (advance_scene started_game none (Except.ok next_generated)
        (Except.ok none) (Except.ok none)).1
    ∧ ¬ ((advance_scene started_game none (Except.ok next_generated)
          (Except.ok none) (Except.ok none)).1.player_actions.length
        = (advance_scene started_game none (Except.ok next_generated)
          (Except.ok none) (Except.ok none)).1.scenes.length - 1) := by
  constructor
  · exact Reachable.advance started_game none (Except.ok next_generated)
      (Except.ok none) (Except.ok none) next_scene_c
      (Reachable.start fresh_game opening_generated (Except.ok none)
        (Except.ok none) opening_scene_c [] rfl rfl (by decide))
      (by decide)
  · decide

/-- Witness for C2: a concrete started game advanced once with a present
player action satisfies both the id-ordering property and the action-count
equality. -/
theorem advance_ordering_invariant_witness :
    scene_ids_ok (advance_scene started_game (some "go")
        (Except.ok next_generated) (Except.ok none) (Except.ok none)).1.scenes
    ∧ (advance_scene started_game (some "go") (Except.ok next_generated)
        (Except.ok none) (Except.ok none)).1.player_actions.length
      = (advance_scene started_game (some "go") (Except.ok next_generated)
        (Except.ok none) (Except.ok none)).1.scenes.length - 1 := by
  constructor
  · exact advance_ordering_invariant.1 _
      (Reachable.advance started_game (some "go") (Except.ok next_generated)
        (Except.ok none) (Except.ok none) next_scene_c
        (Reachable.start fresh_game opening_generated (Except.ok none)
          (Except.ok none) opening_scene_c [] rfl rfl (by decide))
        (by decide))
  · exact advance_ordering_invariant.2 _
      (ReachableAllActions.advance started_game "go" (Except.ok next_generated)
        (Except.ok none) (Except.ok none) next_scene_c
        (ReachableAllActions.start fresh_game opening_generated (Except.ok none)
          (Except.ok none) opening_scene_c [] rfl rfl (by decide))
        (by decide))

end GeneratedAdventures
